import Mathlib

/-!
Verification of the reachy2 demo-script repository against its
natural-language specification.

Shallow embedding conventions:

* Python floats that stand for joint angles in the limit table and in
  calls to validate_joint_position / move_joint are modelled as rationals
  measured in units of pi radians (so math.pi becomes 1, math.pi/2
  becomes 1/2, and so on).  Multiplication by the positive constant pi
  is an order isomorphism of the reals, so the comparisons performed by
  validate_joint_position (position < min, position > max) are preserved
  exactly by this change of units.
* Other numeric literals (look_at coordinates, durations, antenna goto
  angles in degrees, wave positions in radians) are carried over
  verbatim as rationals; decimal source literals are written with mkRat
  (0.3 becomes mkRat 3 10) so that every definition evaluates by kernel
  reduction.
* Side effects on the vendor SDK are modelled as explicit event traces:
  each operation returns its Python return value together with the list
  of SDK calls it issued, in order.
* The Python dictionaries JOINT_LIMITS and the SDK part/joint structure
  are modelled as association lists; dictionary membership tests become
  List.lookup / List.contains.
-/

namespace Reachy2

/-- The type of the module-level joint-limit dictionary of src/main.py:
part name to (joint name to (min, max)), angles in units of pi. -/
abbrev LimitTable := List (String × List (String × (ℚ × ℚ)))

/-- JOINT_LIMITS from src/main.py lines 17-45, angles in units of pi
(math.pi becomes 1, math.pi/2 becomes 1/2, math.pi/4 becomes 1/4). -/
def JOINT_LIMITS : LimitTable :=
  [("r_arm",
    [("shoulder.pitch", (-1, mkRat 1 2)),
     ("shoulder.roll", (mkRat (-1) 2, mkRat 1 2)),
     ("elbow.yaw", (-1, 1)),
     ("elbow.pitch", (-1, 0)),
     ("wrist.roll", (-1, 1)),
     ("wrist.pitch", (mkRat (-1) 2, mkRat 1 2)),
     ("wrist.yaw", (-1, 1)),
     ("gripper", (0, mkRat 1 2))]),
   ("l_arm",
    [("shoulder.pitch", (-1, mkRat 1 2)),
     ("shoulder.roll", (mkRat (-1) 2, mkRat 1 2)),
     ("elbow.yaw", (-1, 1)),
     ("elbow.pitch", (0, 1)),
     ("wrist.roll", (-1, 1)),
     ("wrist.pitch", (mkRat (-1) 2, mkRat 1 2)),
     ("wrist.yaw", (-1, 1)),
     ("gripper", (0, mkRat 1 2))]),
   ("head",
    [("neck.roll", (mkRat (-1) 4, mkRat 1 4)),
     ("neck.pitch", (mkRat (-1) 4, mkRat 1 4)),
     ("neck.yaw", (mkRat (-1) 2, mkRat 1 2)),
     ("l_antenna", (0, mkRat 1 2)),
     ("r_antenna", (0, mkRat 1 2))])]

/-- ReachyController.validate_joint_position (src/main.py lines 281-307),
parametrised by the limit table it reads (the Python code reads the
module-level JOINT_LIMITS).  Unknown part: warn and return True.
Unknown joint of a known part: warn and return True.  Otherwise return
False exactly when position < min or position > max. -/
def validate_with (st : LimitTable) (part joint_name : String) (position : ℚ) : Bool :=
  match st.lookup part with
  | none => true
  | some joints =>
    match joints.lookup joint_name with
    | none => true
    | some (min_pos, max_pos) =>
      if position < min_pos ∨ position > max_pos then false else true

/-- ReachyController.validate_joint_position against the module-level
JOINT_LIMITS table, as the Python method actually runs. -/
def validate_joint_position (part joint_name : String) (position : ℚ) : Bool :=
  validate_with JOINT_LIMITS part joint_name position

/-- The combined lookup performed by validate_joint_position: the limit
pair for (part, joint), none when the part is not in JOINT_LIMITS or the
joint is not under that part. -/
def lookupLimit (part joint_name : String) : Option (ℚ × ℚ) :=
  (JOINT_LIMITS.lookup part).bind (fun joints => joints.lookup joint_name)

/-- The SDK robot object as seen by this repository: which parts exist
(getattr on the SDK handle) and which joint names each part's .joints
dictionary holds. -/
abbrev Robot := List (String × List String)

/-- A robot exposing exactly the Reachy2 parts and joints that the
repository addresses (the keys of JOINT_LIMITS): r_arm, l_arm, head. -/
def defaultRobot : Robot :=
  [("r_arm",
    ["shoulder.pitch", "shoulder.roll", "elbow.yaw", "elbow.pitch",
     "wrist.roll", "wrist.pitch", "wrist.yaw", "gripper"]),
   ("l_arm",
    ["shoulder.pitch", "shoulder.roll", "elbow.yaw", "elbow.pitch",
     "wrist.roll", "wrist.pitch", "wrist.yaw", "gripper"]),
   ("head",
    ["neck.roll", "neck.pitch", "neck.yaw", "l_antenna", "r_antenna"])]

/-- One SDK side effect issued by a ReachyController operation.
goalSet positions coming from move_joint and move_to_neutral_position
are in units of pi; those coming from wave_hello carry the literal
radian values of the source, and antennaGoto carries the literal degree
values of the source. -/
inductive Event where
  | headTurnOn
  | robotTurnOn
  | robotTurnOffSmoothly
  | lookAt (x y z duration : ℚ)
  | antennaGoto (side : String) (position duration : ℚ)
  | goalSet (part joint : String) (position : ℚ)
  | sleep (duration : ℚ)
deriving DecidableEq

/-- ReachyController.move_joint (src/main.py lines 309-355) parametrised
by the limit table it consults.  Guard order as in the source: connected
check, then validate_joint_position, then part availability (getattr),
then joint membership in the part's joints dictionary; on success the
goal position is forwarded and the method sleeps for the duration. -/
def move_joint_with (st : LimitTable) (r : Robot) (connected : Bool)
    (part joint_name : String) (position duration : ℚ) : Bool × List Event :=
  if !connected then (false, [])
  else if !(validate_with st part joint_name position) then (false, [])
  else
    match r.lookup part with
    | none => (false, [])
    | some joints =>
      if joints.contains joint_name then
        (true, [Event.goalSet part joint_name position, Event.sleep duration])
      else (false, [])

/-- ReachyController.move_joint against the module-level JOINT_LIMITS. -/
def move_joint (r : Robot) (connected : Bool)
    (part joint_name : String) (position duration : ℚ) : Bool × List Event :=
  move_joint_with JOINT_LIMITS r connected part joint_name position duration

/-- validate_joint_position as a transformer of the module state holding
the JOINT_LIMITS dictionary: the method body contains no assignment to
the table, so the state is returned unchanged. -/
def validate_joint_position_mod (st : LimitTable) (part joint_name : String)
    (position : ℚ) : Bool × LimitTable :=
  (validate_with st part joint_name position, st)

/-- move_joint as a transformer of the module state holding the
JOINT_LIMITS dictionary: the method body contains no assignment to the
table, so the state is returned unchanged. -/
def move_joint_mod (st : LimitTable) (r : Robot) (connected : Bool)
    (part joint_name : String) (position duration : ℚ) :
    (Bool × List Event) × LimitTable :=
  (move_joint_with st r connected part joint_name position duration, st)

/-- The duration_map dictionary of perform_intro_setup
(src/main.py lines 113-117). -/
def duration_map : List (String × ℚ) := [("slow", 3), ("medium", 2), ("fast", 1)]

/-- ReachyController.perform_intro_setup (src/main.py lines 95-159):
guard on connection, then the fixed sequence of SDK calls of the happy
path.  look_at coordinates and durations are the literal source values;
antenna goto positions are the literal degree values. -/
def perform_intro_setup (connected : Bool) (speed : String) : Bool × List Event :=
  if !connected then (false, [])
  else
    let move_duration := (duration_map.lookup speed).getD 2
    (true,
     [Event.headTurnOn, Event.sleep 1,
      Event.lookAt (mkRat 3 10) 0 (mkRat (-2) 5) move_duration,
      Event.sleep (mkRat 1 2),
      Event.robotTurnOn, Event.sleep 1,
      Event.lookAt (mkRat 1 2) 0 (mkRat 1 10) move_duration,
      Event.antennaGoto "l_antenna" 10 (mkRat 4 5),
      Event.antennaGoto "r_antenna" (-10) (mkRat 4 5), Event.sleep 1,
      Event.antennaGoto "l_antenna" 0 (mkRat 4 5),
      Event.antennaGoto "r_antenna" 0 (mkRat 4 5), Event.sleep 1])

/-- ReachyController.reset_to_down_position (src/main.py lines 161-191):
guard on connection; turn the head on (with a one second sleep) only
when it is not already on; then look down and turn off smoothly. -/
def reset_to_down_position (connected : Bool) (head_is_on : Bool) : Bool × List Event :=
  if !connected then (false, [])
  else
    (true,
     (if !head_is_on then [Event.headTurnOn, Event.sleep 1] else []) ++
       [Event.lookAt (mkRat 3 10) 0 (mkRat (-2) 5) 2, Event.robotTurnOffSmoothly])

/-- ReachyController.move_to_neutral_position (src/main.py lines
357-396): guard on connection; for each of r_arm, l_arm, head present
on the robot, set every joint goal position to 0; then sleep for the
duration. -/
def move_to_neutral_position (r : Robot) (connected : Bool) (duration : ℚ) :
    Bool × List Event :=
  if !connected then (false, [])
  else
    let partEvents := fun (p : String) =>
      match r.lookup p with
      | none => []
      | some js => js.map (fun j => Event.goalSet p j 0)
    (true, partEvents "r_arm" ++ partEvents "l_arm" ++ partEvents "head" ++
      [Event.sleep duration])

/-- The movements list of wave_hello (src/main.py lines 422-431):
(joint name, position in radians, duration in seconds). -/
def wave_movements : List (String × ℚ × ℚ) :=
  [("shoulder.pitch", mkRat (-1) 2, 1), ("elbow.pitch", mkRat (-6) 5, 1),
   ("wrist.yaw", mkRat 1 2, mkRat 1 2), ("wrist.yaw", mkRat (-1) 2, mkRat 1 2),
   ("wrist.yaw", mkRat 1 2, mkRat 1 2), ("wrist.yaw", 0, mkRat 1 2),
   ("elbow.pitch", 0, 1), ("shoulder.pitch", 0, 1)]

/-- ReachyController.wave_hello (src/main.py lines 398-443): guard on
connection, then arm availability (getattr); for each scripted movement
whose joint exists on the arm, forward the goal position and sleep. -/
def wave_hello (r : Robot) (connected : Bool) (arm : String) : Bool × List Event :=
  if !connected then (false, [])
  else
    match r.lookup arm with
    | none => (false, [])
    | some js =>
      (true,
       ((wave_movements.filter (fun m => js.contains m.1)).map
         (fun m => [Event.goalSet arm m.1 m.2.1, Event.sleep m.2.2])).flatten)

/-- One SDK audio side effect issued by an AudioManager operation. -/
inductive AudioEvent where
  | play (filename : String)
  | download (filename local_path : String)
  | remove (filename : String)
  | record (filename : String) (duration_secs : ℚ)
deriving DecidableEq

/-- Python str.endswith as used by AudioManager.record_audio: a suffix
test on the character sequence. -/
def pyEndswith (s suffix : String) : Bool :=
  suffix.toList.isSuffixOf s.toList

/-- The filename adjustment at the top of AudioManager.record_audio
(src/audio.py lines 146-148): append the fixed extension .ogg when the
given filename does not already end with it. -/
def record_audio_filename (filename : String) : String :=
  if pyEndswith filename ".ogg" then filename else filename ++ ".ogg"

/-- AudioManager.record_audio (src/audio.py lines 132-178): the
recording is issued to the SDK under the adjusted filename; the return
value is the post-recording existence check of that filename against
the list the SDK reports afterwards. -/
def record_audio (files_after : List String) (filename : String)
    (duration_secs : ℚ) : Bool × List AudioEvent :=
  let fname := record_audio_filename filename
  (files_after.contains fname, [AudioEvent.record fname duration_secs])

/-- AudioManager.play_audio_file (src/audio.py lines 76-114) on the
default non-blocking path: check the filename against the list returned
by list_audio_files; only when present forward it to the SDK player and
return True. -/
def play_audio_file (available_files : List String) (filename : String) :
    Bool × List AudioEvent :=
  if !(available_files.contains filename) then (false, [])
  else (true, [AudioEvent.play filename])

/-- AudioManager.download_audio_file (src/audio.py lines 196-229):
check the filename against the list returned by list_audio_files before
any SDK call; when present forward the download, then return whether
the local file exists afterwards (local_file_created). -/
def download_audio_file (available_files : List String)
    (filename local_path : String) (local_file_created : Bool) :
    Bool × List AudioEvent :=
  if !(available_files.contains filename) then (false, [])
  else (local_file_created, [AudioEvent.download filename local_path])

/-- AudioManager.remove_audio_file (src/audio.py lines 231-262): check
the filename against the list returned by list_audio_files before any
SDK call; when present and either confirmation is off or the user
answers yes, forward the removal and return True. -/
def remove_audio_file (available_files : List String) (filename : String)
    (confirm user_confirms : Bool) : Bool × List AudioEvent :=
  if !(available_files.contains filename) then (false, [])
  else if confirm && !user_confirms then (false, [])
  else (true, [AudioEvent.remove filename])

/-- A subprocess.run call site of this repository.  execsContainer:
the argument vector starts with docker exec into the named container.
writesGeneratedFile: the exec only writes a generated file or script
into the container (a bash -c with a cat heredoc) rather than running a
command whose output is inspected.  timeout: the timeout keyword
argument, none when the call passes no timeout.  maxAttempts: how many
times one invocation of the enclosing function executes this call site
(all sites are straight-line code, so 1). -/
structure SubprocessCall where
  site : String
  execsContainer : Bool
  writesGeneratedFile : Bool
  timeout : Option ℚ
  maxAttempts : Nat
deriving DecidableEq

/-- All subprocess.run call sites of the repository, in source order:
five in src/gazebo_scene_manager.py and three in
src/test_gazebo_scenes.py.  Every one of them execs into the external
container runtime. -/
def subprocessCalls : List SubprocessCall :=
  [{ site := "gazebo_scene_manager._spawn_object_in_gazebo:285 write sdf file",
     execsContainer := true, writesGeneratedFile := true,
     timeout := none, maxAttempts := 1 },
   { site := "gazebo_scene_manager._spawn_object_alternative:370 write spawn script",
     execsContainer := true, writesGeneratedFile := true,
     timeout := none, maxAttempts := 1 },
   { site := "gazebo_scene_manager._spawn_object_alternative:379 run spawn script",
     execsContainer := true, writesGeneratedFile := false,
     timeout := some 20, maxAttempts := 1 },
   { site := "gazebo_scene_manager._remove_object_from_gazebo:450 write removal script",
     execsContainer := true, writesGeneratedFile := true,
     timeout := none, maxAttempts := 1 },
   { site := "gazebo_scene_manager._remove_object_from_gazebo:460 run removal script",
     execsContainer := true, writesGeneratedFile := false,
     timeout := some 20, maxAttempts := 1 },
   { site := "test_gazebo_scenes.test_gazebo_docker_connection:24 echo test",
     execsContainer := true, writesGeneratedFile := false,
     timeout := some 10, maxAttempts := 1 },
   { site := "test_gazebo_scenes.test_gazebo_docker_connection:45 ros2 service list",
     execsContainer := true, writesGeneratedFile := false,
     timeout := some 15, maxAttempts := 1 },
   { site := "test_gazebo_scenes.test_gazebo_docker_connection:73 gazebo version",
     execsContainer := true, writesGeneratedFile := false,
     timeout := some 10, maxAttempts := 1 }]

/-- max_retries of test_mujoco_connection (src/test_mujoco_connection.py
line 18). -/
def max_retries : Nat := 5

/-- retry_delay of test_mujoco_connection (src/test_mujoco_connection.py
line 19), in seconds. -/
def retry_delay : ℚ := 10

/-- The for-loop of test_mujoco_connection over the remaining attempt
indices.  attempt_ok says whether the try-block of a given attempt index
succeeds.  Returns (return value, attempts made, list of retry sleeps
issued): a successful attempt returns True immediately; a failed
attempt sleeps retry_delay only when it is not the last one. -/
def connection_attempt_loop (attempt_ok : Nat → Bool) : List Nat → Bool × Nat × List ℚ
  | [] => (false, 0, [])
  | attempt :: rest =>
    if attempt_ok attempt then (true, 1, [])
    else
      let r := connection_attempt_loop attempt_ok rest
      if attempt < max_retries - 1 then (r.1, r.2.1 + 1, retry_delay :: r.2.2)
      else (r.1, r.2.1 + 1, r.2.2)

/-- test_mujoco_connection (src/test_mujoco_connection.py lines 13-76):
run the attempt loop over range(max_retries); falling out of the loop
returns False. -/
def test_mujoco_connection (attempt_ok : Nat → Bool) : Bool × Nat × List ℚ :=
  connection_attempt_loop attempt_ok (List.range max_retries)

/-- The mutable fields of GazeboSceneManager touched by clear_scene. -/
structure SceneState where
  current_scene : Option String
  spawned_objects : List String
deriving DecidableEq

/-- GazeboSceneManager.clear_scene (src/gazebo_scene_manager.py lines
236-261).  remove_ok says whether _remove_object_from_gazebo succeeds
for a given object name (its failures are caught internally and
surfaced as False).  The loop counts successful removals and only
prints failures; afterwards current_scene is set to None, the
spawned_objects list is cleared, and True is returned. -/
def clear_scene (remove_ok : String → Bool) (s : SceneState) :
    Bool × Nat × SceneState :=
  let removed_count :=
    s.spawned_objects.foldl (fun n obj => if remove_ok obj then n + 1 else n) 0
  (true, removed_count, { current_scene := none, spawned_objects := [] })

end Reachy2

namespace Reachy2

/-! ## Theorems for the claims -/

/-- C1: for every part and joint name present in the JOINT_LIMITS table
with declared range (min, max), validate_joint_position returns True
exactly when the position lies in the closed interval [min, max]; every
position strictly outside is rejected and every position inside,
boundaries included, is accepted. -/
theorem C1_validate_known_joint (part joint_name : String) (mn mx position : ℚ)
    (h : lookupLimit part joint_name = some (mn, mx)) :
    validate_joint_position part joint_name position = true ↔
      mn ≤ position ∧ position ≤ mx := by
  unfold validate_joint_position validate_with
  cases hp : List.lookup part JOINT_LIMITS with
  | none => exfalso; simp [lookupLimit, hp] at h
  | some joints =>
    have hj : List.lookup joint_name joints = some (mn, mx) := by
      simpa [lookupLimit, hp] using h
    simp only [hj]
    split
    next hcond =>
      simp only [Bool.false_eq_true, false_iff, not_and, not_le]
      intro h1
      rcases hcond with hc | hc
      · exact absurd h1 (not_le.mpr hc)
      · exact hc
    next hcond =>
      push_neg at hcond
      simp only [true_iff]
      exact ⟨hcond.1, hcond.2⟩

/-- Witness for C1 at the concrete joint head.neck.roll and position 0. -/
theorem C1_witness :
    lookupLimit "head" "neck.roll" = some (mkRat (-1) 4, mkRat 1 4) ∧
    (validate_joint_position "head" "neck.roll" 0 = true ↔
      mkRat (-1) 4 ≤ (0 : ℚ) ∧ (0 : ℚ) ≤ mkRat 1 4) :=
  ⟨by decide, C1_validate_known_joint "head" "neck.roll" (mkRat (-1) 4) (mkRat 1 4) 0 (by decide)⟩

/-- C2 as stated is false: a call in the connected state whose position
passes the limit check (here a joint name absent from the limit table,
which validation passes with a warning) can still return False with no
goal position forwarded and no sleep, because the joint is not found on
the robot part. -/
theorem C2_counterexample :
    validate_joint_position "r_arm" "fake_joint" 0 = true ∧
    move_joint defaultRobot true "r_arm" "fake_joint" 0 2 = (false, []) := by
  decide

/-- C2 amended: in the connected state the limit check comes first; if
it fails the call returns False and forwards nothing; if it passes and
the part exists on the robot and the joint exists in that part's joints
dictionary, the goal position is forwarded and the call sleeps for
exactly the given duration and returns True; if it passes but the part
or joint is unavailable, the call returns False and forwards nothing.
In particular a goal position is only ever forwarded when the limit
check passed. -/
theorem C2_move_joint_guard (r : Robot) (part joint_name : String) (position duration : ℚ) :
    (validate_joint_position part joint_name position = false →
      move_joint r true part joint_name position duration = (false, [])) ∧
    (∀ joints, validate_joint_position part joint_name position = true →
      r.lookup part = some joints → joints.contains joint_name = true →
      move_joint r true part joint_name position duration =
        (true, [Event.goalSet part joint_name position, Event.sleep duration])) ∧
    (∀ p j q, Event.goalSet p j q ∈ (move_joint r true part joint_name position duration).2 →
      validate_joint_position part joint_name position = true) ∧
    (validate_joint_position part joint_name position = true →
      (r.lookup part = none ∨
        ∀ joints, r.lookup part = some joints → joints.contains joint_name = false) →
      move_joint r true part joint_name position duration = (false, [])) := by
  refine ⟨?_, ?_, ?_, ?_⟩
  · intro hv
    unfold validate_joint_position at hv
    simp [move_joint, move_joint_with, hv]
  · intro joints hv hp hj
    unfold validate_joint_position at hv
    have hj' : joint_name ∈ joints := by simpa using hj
    simp [move_joint, move_joint_with, hv, hp, hj']
  · intro p j q hmem
    cases hv : validate_joint_position part joint_name position with
    | true => rfl
    | false =>
      exfalso
      unfold validate_joint_position at hv
      simp [move_joint, move_joint_with, hv] at hmem
  · intro hv hcase
    unfold validate_joint_position at hv
    cases hp : r.lookup part with
    | none => simp [move_joint, move_joint_with, hv, hp]
    | some joints =>
      rcases hcase with hnone | hall
      · rw [hp] at hnone; exact absurd hnone (by simp)
      · have hc : joint_name ∉ joints := by simpa using hall joints hp
        simp [move_joint, move_joint_with, hv, hp, hc]

/-- Witness for C2 amended: a valid gripper command on the default
robot forwards the goal and sleeps for the duration. -/
theorem C2_witness :
    move_joint defaultRobot true "r_arm" "gripper" (mkRat 1 4) 2 =
      (true, [Event.goalSet "r_arm" "gripper" (mkRat 1 4), Event.sleep 2]) :=
  (C2_move_joint_guard defaultRobot "r_arm" "gripper" (mkRat 1 4) 2).2.1
    ["shoulder.pitch", "shoulder.roll", "elbow.yaw", "elbow.pitch",
     "wrist.roll", "wrist.pitch", "wrist.yaw", "gripper"]
    (by decide) (by decide) (by decide)

/-- C3: for every part absent from JOINT_LIMITS, and every joint name
absent under a known part (both cases are exactly lookupLimit returning
none), validation passes regardless of the position value. -/
theorem C3_validate_unknown (part joint_name : String) (position : ℚ)
    (h : lookupLimit part joint_name = none) :
    validate_joint_position part joint_name position = true := by
  unfold validate_joint_position validate_with
  cases hp : List.lookup part JOINT_LIMITS with
  | none => rfl
  | some joints =>
    have hj : List.lookup joint_name joints = none := by
      simpa [lookupLimit, hp] using h
    simp [hj]

/-- Witness for C3 at the unknown part torso and an extreme position. -/
theorem C3_witness :
    lookupLimit "torso" "x" = none ∧
    validate_joint_position "torso" "x" 100 = true :=
  ⟨by decide, C3_validate_unknown "torso" "x" 100 (by decide)⟩

end Reachy2

namespace Reachy2

/-- C4: record_audio issues the recording under the given filename with
the fixed extension .ogg appended exactly when the filename does not
already end in .ogg, and unchanged otherwise; the adjustment is
idempotent, so a name already ending in .ogg is never extended again. -/
theorem C4_record_extension (filename : String) :
    (pyEndswith filename ".ogg" = true → record_audio_filename filename = filename) ∧
    (pyEndswith filename ".ogg" = false →
      record_audio_filename filename = filename ++ ".ogg") ∧
    record_audio_filename (record_audio_filename filename) =
      record_audio_filename filename ∧
    ∀ files_after duration_secs,
      (record_audio files_after filename duration_secs).2 =
        [AudioEvent.record (record_audio_filename filename) duration_secs] := by
  have hsuf : ∀ g : String, pyEndswith (g ++ ".ogg") ".ogg" = true := by
    intro g
    unfold pyEndswith
    have hg : (g ++ ".ogg").toList = g.toList ++ ".ogg".toList := by
      simp [String.toList]
    rw [hg, List.isSuffixOf_iff_suffix]
    exact List.suffix_append _ _
  refine ⟨?_, ?_, ?_, ?_⟩
  · intro h; simp [record_audio_filename, h]
  · intro h; simp [record_audio_filename, h]
  · cases h : pyEndswith filename ".ogg" with
    | true => simp [record_audio_filename, h]
    | false => simp [record_audio_filename, h, hsuf]
  · intro fs d; rfl

/-- Witness for C4: a bare filename gets the .ogg extension appended. -/
theorem C4_witness : record_audio_filename "greeting" = "greeting" ++ ".ogg" :=
  (C4_record_extension "greeting").2.1 (by decide)

/-- C5 as stated is false: the repository contains a subprocess call
that execs into the container runtime with no timeout at all (the
docker exec that writes the generated SDF file in
_spawn_object_in_gazebo, and likewise the two generated-script writing
calls). -/
theorem C5_counterexample :
    ∃ c ∈ subprocessCalls, c.execsContainer = true ∧ c.timeout = none := by
  decide

/-- C5 amended: every subprocess call of the repository execs into the
container runtime and is executed at most once per invocation of its
enclosing function (no retries); the calls that run commands or
generated scripts carry a fixed timeout of 10, 15 or 20 seconds, while
the three calls that merely write a generated file into the container
pass no timeout. -/
theorem C5_subprocess_timeouts :
    ∀ c ∈ subprocessCalls,
      c.execsContainer = true ∧ c.maxAttempts = 1 ∧
      (c.writesGeneratedFile = false →
        c.timeout = some 10 ∨ c.timeout = some 15 ∨ c.timeout = some 20) ∧
      (c.writesGeneratedFile = true → c.timeout = none) := by
  decide

/-- Witness for C5 amended at the spawn-script run call site. -/
theorem C5_witness :
    (SubprocessCall.mk
      "gazebo_scene_manager._spawn_object_alternative:379 run spawn script"
      true false (some 20) 1).maxAttempts = 1 ∧
    ((SubprocessCall.mk
      "gazebo_scene_manager._spawn_object_alternative:379 run spawn script"
      true false (some 20) 1).timeout = some 10 ∨
     (SubprocessCall.mk
      "gazebo_scene_manager._spawn_object_alternative:379 run spawn script"
      true false (some 20) 1).timeout = some 15 ∨
     (SubprocessCall.mk
      "gazebo_scene_manager._spawn_object_alternative:379 run spawn script"
      true false (some 20) 1).timeout = some 20) := by
  have h := C5_subprocess_timeouts
    (SubprocessCall.mk
      "gazebo_scene_manager._spawn_object_alternative:379 run spawn script"
      true false (some 20) 1)
    (by decide)
  exact ⟨h.2.1, h.2.2.1 rfl⟩

/-- C6: play_audio_file, download_audio_file and remove_audio_file all
check the filename against the list returned by the SDK before any SDK
call: when the file is absent they return False having issued no audio
SDK call; when it is present, play_audio_file forwards the filename to
the SDK player and returns True. -/
theorem C6_audio_existence_guard (files : List String) (f p : String)
    (localOk confirm yes : Bool) :
    (files.contains f = false →
      play_audio_file files f = (false, []) ∧
      download_audio_file files f p localOk = (false, []) ∧
      remove_audio_file files f confirm yes = (false, [])) ∧
    (files.contains f = true →
      play_audio_file files f = (true, [AudioEvent.play f])) := by
  constructor
  · intro h
    have h' : f ∉ files := by simpa using h
    refine ⟨?_, ?_, ?_⟩ <;>
      simp [play_audio_file, download_audio_file, remove_audio_file, h']
  · intro h
    have h' : f ∈ files := by simpa using h
    simp [play_audio_file, h']

/-- Witness for C6: playing a stored file forwards it and returns True. -/
theorem C6_witness :
    play_audio_file ["beep.ogg"] "beep.ogg" = (true, [AudioEvent.play "beep.ogg"]) :=
  (C6_audio_existence_guard ["beep.ogg"] "beep.ogg" "C:/" false false false).2 (by decide)

/-- C7: each motion operation of ReachyController, called while not
connected, returns False having issued no SDK call at all; the guard
fires before any SDK interaction for every choice of the remaining
arguments. -/
theorem C7_disconnected_no_sdk_calls (r : Robot) (speed arm part joint_name : String)
    (head_is_on : Bool) (position d1 d2 : ℚ) :
    perform_intro_setup false speed = (false, []) ∧
    reset_to_down_position false head_is_on = (false, []) ∧
    move_joint r false part joint_name position d1 = (false, []) ∧
    move_to_neutral_position r false d2 = (false, []) ∧
    wave_hello r false arm = (false, []) :=
  ⟨rfl, rfl, rfl, rfl, rfl⟩

end Reachy2

namespace Reachy2

/-- Closed-form evaluation of the connection test over the 5 attempt
indices, used to settle C8. -/
theorem test_mujoco_connection_eval (ok : Nat → Bool) :
    test_mujoco_connection ok =
      if ok 0 then (true, 1, [])
      else if ok 1 then (true, 2, [retry_delay])
      else if ok 2 then (true, 3, [retry_delay, retry_delay])
      else if ok 3 then (true, 4, [retry_delay, retry_delay, retry_delay])
      else if ok 4 then (true, 5, [retry_delay, retry_delay, retry_delay, retry_delay])
      else (false, 5, [retry_delay, retry_delay, retry_delay, retry_delay]) := by
  have hr : List.range max_retries = [0, 1, 2, 3, 4] := rfl
  unfold test_mujoco_connection
  rw [hr]
  cases h0 : ok 0 <;> cases h1 : ok 1 <;> cases h2 : ok 2 <;> cases h3 : ok 3 <;>
    cases h4 : ok 4 <;>
    simp [connection_attempt_loop, h0, h1, h2, h3, h4, max_retries]

/-- C8: test_mujoco_connection makes at most max_retries = 5 attempts,
returns True exactly when some of the first 5 attempts succeeds, sleeps
a fixed retry_delay = 10 seconds between consecutive failed attempts
(so i sleeps before a success at attempt index i, and 4 sleeps when all
5 attempts fail), and returns False without raising after all 5
attempts fail. -/
theorem C8_connection_retry (ok : Nat → Bool) :
    (test_mujoco_connection ok).2.1 ≤ max_retries ∧
    ((test_mujoco_connection ok).1 = true ↔ ∃ i, i < max_retries ∧ ok i = true) ∧
    ((∀ i, i < max_retries → ok i = false) →
      test_mujoco_connection ok =
        (false, max_retries, List.replicate (max_retries - 1) retry_delay)) ∧
    (∀ i, i < max_retries → ok i = true → (∀ j, j < i → ok j = false) →
      test_mujoco_connection ok = (true, i + 1, List.replicate i retry_delay)) := by
  refine ⟨?_, ?_, ?_, ?_⟩
  · rw [test_mujoco_connection_eval]
    cases h0 : ok 0 <;> cases h1 : ok 1 <;> cases h2 : ok 2 <;> cases h3 : ok 3 <;>
      cases h4 : ok 4 <;> simp [max_retries]
  · constructor
    · intro h
      by_contra hno
      push_neg at hno
      have hf : ∀ i, i < max_retries → ok i = false := by
        intro i hi
        cases hcase : ok i with
        | false => rfl
        | true => exact absurd hcase (hno i hi)
      have e0 := hf 0 (by norm_num [max_retries])
      have e1 := hf 1 (by norm_num [max_retries])
      have e2 := hf 2 (by norm_num [max_retries])
      have e3 := hf 3 (by norm_num [max_retries])
      have e4 := hf 4 (by norm_num [max_retries])
      rw [test_mujoco_connection_eval, e0, e1, e2, e3, e4] at h
      simp at h
    · rintro ⟨i, hi, hok⟩
      rw [test_mujoco_connection_eval]
      have hi' : i < 5 := by simpa [max_retries] using hi
      interval_cases i <;> rw [hok] <;> split_ifs <;> simp_all
  · intro hall
    have e0 : ok 0 = false := hall 0 (by norm_num [max_retries])
    have e1 : ok 1 = false := hall 1 (by norm_num [max_retries])
    have e2 : ok 2 = false := hall 2 (by norm_num [max_retries])
    have e3 : ok 3 = false := hall 3 (by norm_num [max_retries])
    have e4 : ok 4 = false := hall 4 (by norm_num [max_retries])
    rw [test_mujoco_connection_eval, e0, e1, e2, e3, e4]
    rfl
  · intro i hi hok hprev
    have hi' : i < 5 := by simpa [max_retries] using hi
    interval_cases i
    · rw [test_mujoco_connection_eval, hok]; rfl
    · have e0 : ok 0 = false := hprev 0 (by norm_num)
      rw [test_mujoco_connection_eval, e0, hok]; rfl
    · have e0 : ok 0 = false := hprev 0 (by norm_num)
      have e1 : ok 1 = false := hprev 1 (by norm_num)
      rw [test_mujoco_connection_eval, e0, e1, hok]; rfl
    · have e0 : ok 0 = false := hprev 0 (by norm_num)
      have e1 : ok 1 = false := hprev 1 (by norm_num)
      have e2 : ok 2 = false := hprev 2 (by norm_num)
      rw [test_mujoco_connection_eval, e0, e1, e2, hok]; rfl
    · have e0 : ok 0 = false := hprev 0 (by norm_num)
      have e1 : ok 1 = false := hprev 1 (by norm_num)
      have e2 : ok 2 = false := hprev 2 (by norm_num)
      have e3 : ok 3 = false := hprev 3 (by norm_num)
      rw [test_mujoco_connection_eval, e0, e1, e2, e3, hok]; rfl

/-- Witness for C8: a run whose third attempt (index 2) succeeds makes
3 attempts and sleeps twice. -/
theorem C8_witness :
    test_mujoco_connection (fun i => i == 2) =
      (true, 2 + 1, List.replicate 2 retry_delay) :=
  (C8_connection_retry (fun i => i == 2)).2.2.2 2 (by norm_num [max_retries])
    (by decide) (by decide)

/-- C9: the joint-limit table is defined once as a static literal and
is only read: validate_joint_position and move_joint, seen as
transformers of the module state holding the table, leave it identical
before and after every call, and their results against JOINT_LIMITS are
exactly the results of the plain operations. -/
theorem C9_limits_table_immutable (st : LimitTable) (r : Robot) (connected : Bool)
    (part joint_name : String) (position duration : ℚ) :
    (validate_joint_position_mod st part joint_name position).2 = st ∧
    (move_joint_mod st r connected part joint_name position duration).2 = st ∧
    (validate_joint_position_mod JOINT_LIMITS part joint_name position).1 =
      validate_joint_position part joint_name position ∧
    (move_joint_mod JOINT_LIMITS r connected part joint_name position duration).1 =
      move_joint r connected part joint_name position duration :=
  ⟨rfl, rfl, rfl, rfl⟩

/-- C10: clear_scene returns True and resets current_scene to none and
spawned_objects to the empty list for every outcome of the individual
removals; removal failures affect neither the return value nor the
retained state. -/
theorem C10_clear_scene_always_resets (remove_ok : String → Bool) (s : SceneState) :
    (clear_scene remove_ok s).1 = true ∧
    (clear_scene remove_ok s).2.2.current_scene = none ∧
    (clear_scene remove_ok s).2.2.spawned_objects = [] :=
  ⟨rfl, rfl, rfl⟩

end Reachy2
